import Mathlib

/-!
Shallow embedding of `src/providers/powerdns/powerdnsProvider.go`
(package `powerdns` of dnscontrol): the `features` capability table,
the provider registration data, and the constructor `newDSP`.

Modelling conventions:
* Go strings are modelled at character granularity by Lean `String`.
* `map[string]string` is an association list; Go indexing `m[k]` yields `""`
  for an absent key, the comma-ok form is `lookup`.
* A Go `(value, error)` pair is `Option powerdnsProvider × Option GoError`
  (`nil` values are `none`); a run that can panic is wrapped in `GoResult`.
* External collaborators that are not part of this repository's excerpt
  (`models.ToNameservers`, `pdns.New`, `x509.CertPool.AppendCertsFromPEM`)
  are modelled from the spec or taken as opaque parameters, as documented
  on each definition.  Go standard-library functions with fully documented
  behaviour (`strconv.ParseBool`, `encoding/json` field matching for this
  struct) are embedded directly.
-/

namespace PowerDNS

/-- Go `error` values, identified by their message. -/
abbrev GoError := String

/-- Outcome of running a piece of Go code that may panic. -/
inductive GoResult (α : Type) where
  | ok (a : α)
  | panicked (msg : String)
deriving DecidableEq, Repr

/-- A Go `map[string]string`, as an association list (keys unique by use). -/
abbrev ConfigMap := List (String × String)

/-- The comma-ok form `v, ok := m[k]`. -/
def lookup (m : ConfigMap) (k : String) : Option String :=
  (m.find? (fun p => p.1 == k)).map (·.2)

/-- Go map indexing `m[k]`: the zero value `""` when the key is absent. -/
def mGet (m : ConfigMap) (k : String) : String :=
  (lookup m k).getD ""

/-- `models.Nameserver` (engine nameserver model): only the `Name` field is
relevant to this core. -/
structure Nameserver where
  name : String
deriving DecidableEq, Repr

/-- `tls.Config`: the two fields this code touches.  `rootCAs = none` means
the system default trust roots; `some certs` is a freshly built pool holding
exactly the parsed certificates. -/
structure TLSConfig where
  insecureSkipVerify : Bool := false
  rootCAs : Option (List String) := none
deriving DecidableEq, Repr

/-- `http.Transport`, reduced to the field this code touches. -/
structure HttpTransport where
  tlsClientConfig : TLSConfig := {}
deriving DecidableEq, Repr

/-- `http.Client`: `transport = none` is Go's nil `Transport`
(the default transport). -/
structure HttpClient where
  transport : Option HttpTransport := none
deriving DecidableEq, Repr

/-- Modelled from the spec: the assembled remote-API client
(`pdns.Client` of the external go-powerdns library) is opaque to this core;
construction records exactly the options passed
(`WithBaseURL`, `WithAPIKeyAuthentication`, `WithHTTPClient`). -/
structure PdnsClient where
  baseURL : String
  apiKey : String
  httpClient : HttpClient
deriving DecidableEq, Repr

/-- The `powerdnsProvider` struct.  Field order and JSON tags follow the
source: `DefaultNS`, `DNSSecOnCreate`, `ZoneKind`, `SOAEditAPI` carry json
tags `default_ns`, `dnssec_on_create`, `zone_kind`, `soa_edit_api`;
`APIKey`, `APIUrl`, `ServerName` are exported and untagged; `client` and
`nameservers` are unexported (invisible to `encoding/json`).
`zones.ZoneKind` is a string type. -/
structure powerdnsProvider where
  client : Option PdnsClient := none
  APIKey : String := ""
  APIUrl : String := ""
  ServerName : String := ""
  DefaultNS : List String := []
  DNSSecOnCreate : Bool := false
  ZoneKind : String := ""
  SOAEditAPI : String := ""
  nameservers : List Nameserver := []
deriving DecidableEq, Repr

/-- JSON values as far as this struct's fields need them. -/
inductive JVal where
  | str (s : String)
  | bool (b : Bool)
  | arr (xs : List String)
deriving DecidableEq, Repr

/-- The `metadata json.RawMessage` argument: empty (`len(metadata) == 0`),
syntactically malformed (unmarshal fails with the given error), or a parsed
JSON object given as its key/value pairs in document order. -/
inductive Metadata where
  | empty
  | malformed (e : GoError)
  | obj (fields : List (String × JVal))
deriving DecidableEq, Repr

/-- ASCII lower-casing of a character (the keys and field names involved
are ASCII). -/
def lowerChar (c : Char) : Char :=
  if 'A' ≤ c ∧ c ≤ 'Z' then Char.ofNat (c.toNat + 32) else c

/-- ASCII lower-casing of a string, used to model `encoding/json`'s
case-insensitive key matching. -/
def lowerStr (s : String) : String := String.mk (s.data.map lowerChar)

/-- One step of `encoding/json` unmarshalling into `powerdnsProvider`:
an object key is matched against the json tag of a tagged field, or the
field name of an untagged exported field, case-insensitively (all effective
names here are distinct case-insensitively, so lower-casing both sides is
exact).  Unexported fields (`client`, `nameservers`) and unknown keys are
ignored.  A value of the wrong type for the matched field is an unmarshal
error (type errors are never exercised by the theorems below). -/
def setField (dsp : powerdnsProvider) (k : String) (v : JVal) :
    Except GoError powerdnsProvider :=
  if lowerStr k = "apikey" then
    match v with
    | .str s => .ok { dsp with APIKey := s }
    | _ => .error "json: cannot unmarshal value into Go struct field APIKey"
  else if lowerStr k = "apiurl" then
    match v with
    | .str s => .ok { dsp with APIUrl := s }
    | _ => .error "json: cannot unmarshal value into Go struct field APIUrl"
  else if lowerStr k = "servername" then
    match v with
    | .str s => .ok { dsp with ServerName := s }
    | _ => .error "json: cannot unmarshal value into Go struct field ServerName"
  else if lowerStr k = "default_ns" then
    match v with
    | .arr xs => .ok { dsp with DefaultNS := xs }
    | _ => .error "json: cannot unmarshal value into Go struct field DefaultNS"
  else if lowerStr k = "dnssec_on_create" then
    match v with
    | .bool b => .ok { dsp with DNSSecOnCreate := b }
    | _ => .error "json: cannot unmarshal value into Go struct field DNSSecOnCreate"
  else if lowerStr k = "zone_kind" then
    match v with
    | .str s => .ok { dsp with ZoneKind := s }
    | _ => .error "json: cannot unmarshal value into Go struct field ZoneKind"
  else if lowerStr k = "soa_edit_api" then
    match v with
    | .str s => .ok { dsp with SOAEditAPI := s }
    | _ => .error "json: cannot unmarshal value into Go struct field SOAEditAPI"
  else .ok dsp

/-- `json.Unmarshal` of an object onto `dsp`: fields applied in document
order (later duplicates win, as in Go). -/
def unmarshal (fields : List (String × JVal)) (dsp : powerdnsProvider) :
    Except GoError powerdnsProvider :=
  match fields with
  | [] => .ok dsp
  | (k, v) :: rest =>
    match setField dsp k v with
    | .error e => .error e
    | .ok d => unmarshal rest d

/-- Lines 84-89: `if len(metadata) != 0 { json.Unmarshal(metadata, dsp) }`. -/
def applyMetadata (metadata : Metadata) (dsp : powerdnsProvider) :
    Except GoError powerdnsProvider :=
  match metadata with
  | .empty => .ok dsp
  | .malformed e => .error e
  | .obj fields => unmarshal fields dsp

/-- Line 92: `ns[0:len(ns)-1]`.  On the empty string the Go slice expression
is `ns[0:-1]`, a runtime panic; otherwise it drops the last character. -/
def stripTrailingChar (ns : String) : GoResult String :=
  if ns = "" then .panicked "runtime error: slice bounds out of range [:-1]"
  else .ok (ns.dropRight 1)

/-- Lines 90-93: the loop building `nss` from `dsp.DefaultNS`. -/
def stripAll (l : List String) : GoResult (List String) :=
  match l with
  | [] => .ok []
  | ns :: rest =>
    match stripTrailingChar ns with
    | .panicked msg => .panicked msg
    | .ok s =>
      match stripAll rest with
      | .panicked msg => .panicked msg
      | .ok ss => .ok (s :: ss)

/-- Modelled from the spec: `models.ToNameservers`, the engine's
nameserver-model constructor, is repository code not under `src/`.  Per the
spec it "may reject malformed entries (invalid hostname)" and must establish
the invariant that "every entry in the resulting nameserver list has no
trailing dot": it rejects a list containing an entry that still carries a
trailing dot and otherwise wraps each entry, in order. -/
def ToNameservers (nss : List String) : Except GoError (List Nameserver) :=
  if nss.any (fun ns => ns.data.getLast? == some '.') then
    .error "provider code leaves trailing dot on nameserver"
  else
    .ok (nss.map (fun ns => { name := ns }))

/-- `strconv.ParseBool`, exactly the spellings Go accepts. -/
def ParseBool (s : String) : Except GoError Bool :=
  if s = "1" ∨ s = "t" ∨ s = "T" ∨ s = "TRUE" ∨ s = "true" ∨ s = "True" then
    .ok true
  else if s = "0" ∨ s = "f" ∨ s = "F" ∨ s = "FALSE" ∨ s = "false" ∨ s = "False" then
    .ok false
  else
    .error ("strconv.ParseBool: parsing \"" ++ s ++ "\": invalid syntax")

/-- Lines 102-111: the `skipTLSVerify` step.  The custom transport is
allocated lazily (`if client.Transport == nil`) and its
`InsecureSkipVerify` flag is set to the parsed value; a parse failure is
returned as the error. -/
def applySkipTLS (m : ConfigMap) (client : HttpClient) :
    Except GoError HttpClient :=
  match lookup m "skipTLSVerify" with
  | none => .ok client
  | some v =>
    match ParseBool v with
    | .error e => .error e
    | .ok b =>
      .ok { client with
              transport := some { tlsClientConfig :=
                { (client.transport.getD {}).tlsClientConfig with
                    insecureSkipVerify := b } } }

/-- Lines 113-125: the `cert` step.  `appendCerts` stands for
`x509.CertPool.AppendCertsFromPEM` (external parsing, opaque here): it
returns the certificates of the blob that parse; the Go comma-ok result is
`appendCerts pem ≠ []`.  On success the freshly built pool becomes the
transport's `RootCAs`, replacing the system default (`none`). -/
def applyCert (appendCerts : String → List String) (m : ConfigMap)
    (client : HttpClient) : Except GoError HttpClient :=
  match lookup m "cert" with
  | none => .ok client
  | some pem =>
    if appendCerts pem = [] then .error "unable to parse given certificate"
    else
      .ok { client with
              transport := some { tlsClientConfig :=
                { (client.transport.getD {}).tlsClientConfig with
                    rootCAs := some (appendCerts pem) } } }

/-- Lines 100-125: `client := &http.Client{}` followed by the two TLS
steps, in source order. -/
def buildHttpClient (appendCerts : String → List String) (m : ConfigMap) :
    Except GoError HttpClient :=
  match applySkipTLS m {} with
  | .error e => .error e
  | .ok c => applyCert appendCerts m c

/-- Modelled from the spec: `pdns.New` of the external go-powerdns library
assembles a client from the options passed; it can fail (e.g. malformed
base URL), with the failure condition opaque to this core and represented
by the parameter `failURL`. -/
def pdnsNew (failURL : String → Option GoError) (url key : String)
    (cl : HttpClient) : Except GoError PdnsClient :=
  match failURL url with
  | some e => .error e
  | none => .ok { baseURL := url, apiKey := key, httpClient := cl }

/-- Lines 65-134: `newDSP`.  `appendCerts` and `failURL` parametrise the two
opaque external calls (PEM parsing, `pdns.New` failure).  Returns the Go
pair `(providers.DNSServiceProvider, error)` — both sides can be non-nil —
or a panic. -/
def newDSP (appendCerts : String → List String)
    (failURL : String → Option GoError) (m : ConfigMap)
    (metadata : Metadata) :
    GoResult (Option powerdnsProvider × Option GoError) :=
  if mGet m "apiKey" = "" then
    .ok (none, some "PowerDNS API Key is required")
  else if mGet m "apiUrl" = "" then
    .ok (none, some "PowerDNS API URL is required")
  else if mGet m "serverName" = "" then
    .ok (none, some "PowerDNS server name is required")
  else
    match applyMetadata metadata
        { APIKey := mGet m "apiKey", APIUrl := mGet m "apiUrl",
          ServerName := mGet m "serverName" } with
    | .error e => .ok (none, some e)
    | .ok dsp1 =>
      match stripAll dsp1.DefaultNS with
      | .panicked msg => .panicked msg
      | .ok nss =>
        match ToNameservers nss with
        | .error e => .ok (some { dsp1 with nameservers := [] }, some e)
        | .ok nservers =>
          match buildHttpClient appendCerts m with
          | .error e => .ok (some { dsp1 with nameservers := nservers }, some e)
          | .ok client =>
            match pdnsNew failURL dsp1.APIUrl dsp1.APIKey client with
            | .error e =>
              .ok (some { dsp1 with nameservers := nservers, client := none },
                   some e)
            | .ok c =>
              .ok (some { dsp1 with nameservers := nservers, client := some c },
                   none)

/-- The capability identifiers named in the `features` table. -/
inductive Capability where
  | CanAutoDNSSEC
  | CanGetZones
  | CanConcur
  | CanUseAlias
  | CanUseCAA
  | CanUseDS
  | CanUseDHCID
  | CanUseLOC
  | CanUseNAPTR
  | CanUsePTR
  | CanUseSRV
  | CanUseSSHFP
  | CanUseTLSA
  | DocCreateDomains
  | DocDualHost
  | DocOfficiallySupported
deriving DecidableEq, Repr

/-- Support descriptors: `providers.Can(...)`, `providers.Cannot(...)`,
`providers.Unimplemented(...)`, each with optional notes/links. -/
inductive CapabilityDescriptor where
  | can (notes : List String)
  | cannot (notes : List String)
  | unimplemented (notes : List String)
deriving DecidableEq, Repr

/-- Lines 18-37: the `features` table, entry for entry. -/
def features : List (Capability × CapabilityDescriptor) :=
  [ (.CanAutoDNSSEC, .can []),
    (.CanGetZones, .can []),
    (.CanConcur, .cannot []),
    (.CanUseAlias, .can ["Needs to be enabled in PowerDNS first",
      "https://doc.powerdns.com/authoritative/guides/alias.html"]),
    (.CanUseCAA, .can []),
    (.CanUseDS, .can []),
    (.CanUseDHCID, .can []),
    (.CanUseLOC, .unimplemented
      ["Normalization within the PowerDNS API seems to be buggy, so disabled",
       "https://github.com/PowerDNS/pdns/issues/10558"]),
    (.CanUseNAPTR, .can []),
    (.CanUsePTR, .can []),
    (.CanUseSRV, .can []),
    (.CanUseSSHFP, .can []),
    (.CanUseTLSA, .can []),
    (.DocCreateDomains, .can []),
    (.DocDualHost, .can []),
    (.DocOfficiallySupported, .cannot []) ]

/-- Capability lookup as the engine performs it: the default for unlisted
capabilities is `Cannot` (source comment, line 19). -/
def featuresLookup (c : Capability) : CapabilityDescriptor :=
  (((features.find? (fun p => p.1 == c)).map (·.2)).getD (.cannot []))

/-- The data registered by `init` (lines 39-48) under provider type
`"POWERDNS"`: the registry itself is outside the excerpt; this records what
is handed to it, verbatim. -/
structure RegistryEntry where
  providerName : String
  maintainer : String
  capabilities : List (Capability × CapabilityDescriptor)
deriving DecidableEq, Repr

/-- Lines 39-48: the single registration of this provider type. -/
def registeredEntry : RegistryEntry :=
  { providerName := "POWERDNS",
    maintainer := "@jpbede",
    capabilities := features }

/-! ### Helper lemmas -/

/-- A successful run of the normalization loop drops exactly the last
character of every entry, in order. -/
theorem stripAll_ok {l l' : List String} (h : stripAll l = .ok l') :
    l' = l.map (fun ns => ns.dropRight 1) := by
  induction l generalizing l' with
  | nil => simpa [stripAll] using h.symm
  | cons ns rest ih =>
    unfold stripAll stripTrailingChar at h
    by_cases hns : ns = ""
    · simp [hns] at h
    · simp only [if_neg hns] at h
      cases hrest : stripAll rest with
      | panicked msg => rw [hrest] at h; cases h
      | ok ss => rw [hrest] at h; cases h; simp [ih hrest]

/-- The normalization loop completes (no panic) when every entry is
non-empty. -/
theorem stripAll_total {l : List String} (h : ∀ ns ∈ l, ns ≠ "") :
    stripAll l = .ok (l.map (fun ns => ns.dropRight 1)) := by
  induction l with
  | nil => rfl
  | cons ns rest ih =>
    have hns : ns ≠ "" := h ns (List.mem_cons_self ns rest)
    have hrest := ih (fun x hx => h x (List.mem_cons_of_mem ns hx))
    unfold stripAll stripTrailingChar
    simp [hns, hrest]

/-- A successful run of the normalization loop implies every entry was
non-empty. -/
theorem stripAll_ok_ne {l l' : List String} (h : stripAll l = .ok l') :
    ∀ ns ∈ l, ns ≠ "" := by
  induction l generalizing l' with
  | nil => intro ns hns; cases hns
  | cons x rest ih =>
    unfold stripAll stripTrailingChar at h
    by_cases hx : x = ""
    · simp [hx] at h
    · simp only [if_neg hx] at h
      intro ns hns
      cases hrest : stripAll rest with
      | panicked msg => rw [hrest] at h; cases h
      | ok ss =>
        rcases List.mem_cons.mp hns with rfl | hmem
        · exact hx
        · exact ih hrest ns hmem

/-- Inversion for the spec-modelled nameserver constructor: on success the
result wraps the input in order and no input entry carries a trailing
dot. -/
theorem ToNameservers_ok {nss : List String} {nsv : List Nameserver}
    (h : ToNameservers nss = .ok nsv) :
    nsv = nss.map (fun ns => { name := ns }) ∧
      ∀ ns ∈ nss, ns.data.getLast? ≠ some '.' := by
  unfold ToNameservers at h
  by_cases hany : nss.any (fun ns => ns.data.getLast? == some '.') = true
  · rw [if_pos hany] at h; cases h
  · rw [if_neg hany] at h
    cases h
    refine ⟨rfl, ?_⟩
    intro ns hns hend
    exact hany (List.any_eq_true.mpr ⟨ns, hns, by simp [hend]⟩)

/-- One unmarshal step never touches the unexported fields `client` and
`nameservers`. -/
theorem setField_frame {d d' : powerdnsProvider} {k : String} {v : JVal}
    (h : setField d k v = .ok d') :
    d'.client = d.client ∧ d'.nameservers = d.nameservers := by
  unfold setField at h
  split_ifs at h <;> cases v <;> simp_all <;> simp [← h]

/-- The whole unmarshal never touches `client` and `nameservers`. -/
theorem unmarshal_frame {fields : List (String × JVal)}
    {d d' : powerdnsProvider} (h : unmarshal fields d = .ok d') :
    d'.client = d.client ∧ d'.nameservers = d.nameservers := by
  induction fields generalizing d with
  | nil => cases h; exact ⟨rfl, rfl⟩
  | cons kv rest ih =>
    unfold unmarshal at h
    cases hset : setField d kv.1 kv.2 with
    | error e => rw [hset] at h; cases h
    | ok dmid =>
      rw [hset] at h
      obtain ⟨h1, h2⟩ := ih h
      obtain ⟨g1, g2⟩ := setField_frame hset
      exact ⟨h1.trans g1, h2.trans g2⟩

/-- A step whose key does not match `apikey`, `apiurl` or `servername`
(case-insensitively) leaves those three fields unchanged. -/
theorem setField_cred_frame {d d' : powerdnsProvider} {k : String} {v : JVal}
    (hk1 : lowerStr k ≠ "apikey") (hk2 : lowerStr k ≠ "apiurl")
    (hk3 : lowerStr k ≠ "servername") (h : setField d k v = .ok d') :
    d'.APIKey = d.APIKey ∧ d'.APIUrl = d.APIUrl ∧
      d'.ServerName = d.ServerName := by
  unfold setField at h
  rw [if_neg hk1, if_neg hk2, if_neg hk3] at h
  split_ifs at h <;> cases v <;> simp_all <;> simp [← h]

/-- An unmarshal none of whose keys matches `apikey`, `apiurl` or
`servername` (case-insensitively) leaves those three fields unchanged. -/
theorem unmarshal_cred_frame {fields : List (String × JVal)}
    {d d' : powerdnsProvider}
    (hk : ∀ k ∈ fields.map Prod.fst,
      lowerStr k ≠ "apikey" ∧ lowerStr k ≠ "apiurl" ∧
        lowerStr k ≠ "servername")
    (h : unmarshal fields d = .ok d') :
    d'.APIKey = d.APIKey ∧ d'.APIUrl = d.APIUrl ∧
      d'.ServerName = d.ServerName := by
  induction fields generalizing d with
  | nil => cases h; exact ⟨rfl, rfl, rfl⟩
  | cons kv rest ih =>
    unfold unmarshal at h
    cases hset : setField d kv.1 kv.2 with
    | error e => rw [hset] at h; cases h
    | ok dmid =>
      rw [hset] at h
      obtain ⟨c1, c2, c3⟩ := hk kv.1 (by simp)
      obtain ⟨g1, g2, g3⟩ := setField_cred_frame c1 c2 c3 hset
      obtain ⟨h1, h2, h3⟩ := ih (fun k hkm => hk k (by simp [hkm])) h
      exact ⟨h1.trans g1, h2.trans g2, h3.trans g3⟩

/-- With no `skipTLSVerify` key the skip step is the identity. -/
theorem applySkipTLS_none {m : ConfigMap} {cl : HttpClient}
    (h : lookup m "skipTLSVerify" = none) : applySkipTLS m cl = .ok cl := by
  unfold applySkipTLS; rw [h]

/-- A present `skipTLSVerify` value that does not parse aborts the skip
step with the parser's error. -/
theorem applySkipTLS_err {m : ConfigMap} {cl : HttpClient} {v : String}
    {e : GoError} (hv : lookup m "skipTLSVerify" = some v)
    (he : ParseBool v = .error e) : applySkipTLS m cl = .error e := by
  unfold applySkipTLS; rw [hv]; dsimp only; rw [he]

/-- A present `skipTLSVerify` value that parses to `b` yields a client whose
transport carries `insecureSkipVerify = b`. -/
theorem applySkipTLS_flag {m : ConfigMap} {cl : HttpClient} {v : String}
    {b : Bool} (hv : lookup m "skipTLSVerify" = some v)
    (hb : ParseBool v = .ok b) :
    applySkipTLS m cl =
      .ok { cl with transport := some { tlsClientConfig :=
        { (cl.transport.getD {}).tlsClientConfig with
            insecureSkipVerify := b } } } := by
  unfold applySkipTLS; rw [hv]; dsimp only; rw [hb]

/-- With no `cert` key the cert step is the identity. -/
theorem applyCert_none {ac : String → List String} {m : ConfigMap}
    {cl : HttpClient} (h : lookup m "cert" = none) :
    applyCert ac m cl = .ok cl := by
  unfold applyCert; rw [h]

/-- A `cert` blob in which nothing parses aborts the cert step. -/
theorem applyCert_err {ac : String → List String} {m : ConfigMap}
    {cl : HttpClient} {pem : String} (hp : lookup m "cert" = some pem)
    (he : ac pem = []) :
    applyCert ac m cl = .error "unable to parse given certificate" := by
  unfold applyCert; rw [hp]; dsimp only; rw [if_pos he]

/-- A failing `skipTLSVerify` parse makes the whole transport construction
fail with that error. -/
theorem buildHttpClient_skipErr {ac : String → List String} {m : ConfigMap}
    {v : String} {e : GoError} (hv : lookup m "skipTLSVerify" = some v)
    (he : ParseBool v = .error e) : buildHttpClient ac m = .error e := by
  unfold buildHttpClient; rw [applySkipTLS_err hv he]

/-- With `skipTLSVerify` parsed to `b`, a successfully built client carries
a transport whose `insecureSkipVerify` flag is `b` (whether or not the cert
step ran afterwards). -/
theorem buildHttpClient_flag {ac : String → List String} {m : ConfigMap}
    {v : String} {b : Bool} {cl : HttpClient}
    (hv : lookup m "skipTLSVerify" = some v) (hb : ParseBool v = .ok b)
    (h : buildHttpClient ac m = .ok cl) :
    ∃ t, cl.transport = some t ∧
      t.tlsClientConfig.insecureSkipVerify = b := by
  unfold buildHttpClient at h
  rw [applySkipTLS_flag hv hb] at h
  dsimp only at h
  unfold applyCert at h
  cases hc : lookup m "cert" with
  | none => rw [hc] at h; dsimp only at h; cases h; exact ⟨_, rfl, rfl⟩
  | some pem =>
    rw [hc] at h
    dsimp only at h
    split_ifs at h with hroots
    cases h
    exact ⟨_, rfl, rfl⟩

/-- If every present `skipTLSVerify` value parses but the `cert` blob does
not, transport construction fails with the certificate error. -/
theorem buildHttpClient_certErr {ac : String → List String} {m : ConfigMap}
    {pem : String} (hp : lookup m "cert" = some pem) (he : ac pem = [])
    (hskip : ∀ v, lookup m "skipTLSVerify" = some v →
      ∃ b, ParseBool v = .ok b) :
    buildHttpClient ac m = .error "unable to parse given certificate" := by
  unfold buildHttpClient
  cases hv : lookup m "skipTLSVerify" with
  | none => rw [applySkipTLS_none hv]; dsimp only; exact applyCert_err hp he
  | some v =>
    obtain ⟨b, hb⟩ := hskip v hv
    rw [applySkipTLS_flag hv hb]
    dsimp only
    exact applyCert_err hp he

/-- With a `cert` blob in which something parses, a successfully built
client carries a transport whose `rootCAs` is exactly the new pool. -/
theorem buildHttpClient_roots {ac : String → List String} {m : ConfigMap}
    {pem : String} {cl : HttpClient} (hp : lookup m "cert" = some pem)
    (hne : ac pem ≠ []) (h : buildHttpClient ac m = .ok cl) :
    ∃ t, cl.transport = some t ∧
      t.tlsClientConfig.rootCAs = some (ac pem) := by
  unfold buildHttpClient at h
  cases hs : applySkipTLS m {} with
  | error e => rw [hs] at h; dsimp only at h; cases h
  | ok c0 =>
    rw [hs] at h
    dsimp only at h
    unfold applyCert at h
    rw [hp] at h
    dsimp only at h
    rw [if_neg hne] at h
    cases h
    exact ⟨_, rfl, rfl⟩

/-- With neither TLS key present, the built client is the default one with
no custom transport. -/
theorem buildHttpClient_default {ac : String → List String} {m : ConfigMap}
    (h1 : lookup m "skipTLSVerify" = none) (h2 : lookup m "cert" = none) :
    buildHttpClient ac m = .ok { transport := none } := by
  unfold buildHttpClient
  rw [applySkipTLS_none h1]
  dsimp only
  exact applyCert_none h2

/-- Inversion of a fully successful `newDSP` run into its stages. -/
theorem newDSP_ok_inv {ac : String → List String}
    {fu : String → Option GoError} {m : ConfigMap} {md : Metadata}
    {d : powerdnsProvider}
    (h : newDSP ac fu m md = .ok (some d, none)) :
    ∃ d1 nss nsv cl c,
      mGet m "apiKey" ≠ "" ∧ mGet m "apiUrl" ≠ "" ∧
      mGet m "serverName" ≠ "" ∧
      applyMetadata md
        { APIKey := mGet m "apiKey", APIUrl := mGet m "apiUrl",
          ServerName := mGet m "serverName" } = .ok d1 ∧
      stripAll d1.DefaultNS = .ok nss ∧
      ToNameservers nss = .ok nsv ∧
      buildHttpClient ac m = .ok cl ∧
      pdnsNew fu d1.APIUrl d1.APIKey cl = .ok c ∧
      d = { d1 with nameservers := nsv, client := some c } := by
  unfold newDSP at h
  split_ifs at h with h1 h2 h3
  · cases h
  · cases h
  · cases h
  · split at h
    · cases h
    next d1 hmd =>
      split at h
      · cases h
      next nss hns =>
        split at h
        · cases h
        next nsv htn =>
          split at h
          · cases h
          next cl hcl =>
            split at h
            · cases h
            next c hpn =>
              cases h
              exact ⟨d1, nss, nsv, cl, c, h1, h2, h3, hmd, hns, htn, hcl,
                hpn, rfl⟩

/-! ### Claims -/

/-- C1: for every configuration map in which `apiKey`, `apiUrl` or
`serverName` is missing or empty, `newDSP` returns a nil instance together
with the error naming that field; the checks run in the order apiKey,
apiUrl, serverName, and the first missing field decides the outcome
regardless of the later fields. -/
theorem C1_mandatory_field_validation (appendCerts : String → List String)
    (failURL : String → Option GoError) (m : ConfigMap)
    (metadata : Metadata) :
    (mGet m "apiKey" = "" →
      newDSP appendCerts failURL m metadata =
        .ok (none, some "PowerDNS API Key is required")) ∧
    (mGet m "apiKey" ≠ "" → mGet m "apiUrl" = "" →
      newDSP appendCerts failURL m metadata =
        .ok (none, some "PowerDNS API URL is required")) ∧
    (mGet m "apiKey" ≠ "" → mGet m "apiUrl" ≠ "" → mGet m "serverName" = "" →
      newDSP appendCerts failURL m metadata =
        .ok (none, some "PowerDNS server name is required")) := by
  refine ⟨fun h1 => ?_, fun h1 h2 => ?_, fun h1 h2 h3 => ?_⟩ <;> unfold newDSP
  · rw [if_pos h1]
  · rw [if_neg h1, if_pos h2]
  · rw [if_neg h1, if_neg h2, if_pos h3]

/-- Witness for C1: a config with `apiKey` and `serverName` but no
`apiUrl` fails with the API-URL error. -/
theorem C1_mandatory_field_validation_witness :
    newDSP (fun _ => []) (fun _ => none) [("apiKey", "k"), ("serverName", "s")]
      .empty = .ok (none, some "PowerDNS API URL is required") :=
  (C1_mandatory_field_validation (fun _ => []) (fun _ => none)
    [("apiKey", "k"), ("serverName", "s")] .empty).2.1 (by decide) (by decide)

/-- C2: whenever `newDSP` succeeds, no resulting nameserver name ends in a
dot, and the list is the resolved default-nameserver list, in order, with
the last character of each entry removed. -/
theorem C2_nameserver_list (appendCerts : String → List String)
    (failURL : String → Option GoError) (m : ConfigMap) (metadata : Metadata)
    (d : powerdnsProvider)
    (h : newDSP appendCerts failURL m metadata = .ok (some d, none)) :
    (∀ n ∈ d.nameservers, n.name.data.getLast? ≠ some '.') ∧
    d.nameservers.map Nameserver.name =
      d.DefaultNS.map (fun ns => ns.dropRight 1) := by
  obtain ⟨d1, nss, nsv, cl, c, _, _, _, hmd, hns, htn, hcl, hpn, rfl⟩ :=
    newDSP_ok_inv h
  obtain ⟨rfl, hnd⟩ := ToNameservers_ok htn
  have hstrip := stripAll_ok hns
  constructor
  · intro n hn
    dsimp only at hn
    rw [List.mem_map] at hn
    obtain ⟨ns, hmem, rfl⟩ := hn
    exact hnd ns hmem
  · dsimp only
    rw [List.map_map, hstrip]
    simp [Function.comp]

/-- Witness for C2 at the end-to-end configuration of the spec. -/
theorem C2_nameserver_list_witness :
    ({ APIKey := "k", APIUrl := "https://pdns.example/api",
       ServerName := "localhost",
       DefaultNS := ["ns1.example.com.", "ns2.example.com."],
       nameservers := [{ name := "ns1.example.com" },
                       { name := "ns2.example.com" }],
       client := some { baseURL := "https://pdns.example/api", apiKey := "k",
                        httpClient := {} } } :
        powerdnsProvider).nameservers.map Nameserver.name =
      ["ns1.example.com.", "ns2.example.com."].map
        (fun ns => ns.dropRight 1) :=
  (C2_nameserver_list (fun _ => []) (fun _ => none)
    [("apiKey", "k"), ("apiUrl", "https://pdns.example/api"),
     ("serverName", "localhost")]
    (.obj [("default_ns", .arr ["ns1.example.com.", "ns2.example.com."])])
    { APIKey := "k", APIUrl := "https://pdns.example/api",
      ServerName := "localhost",
      DefaultNS := ["ns1.example.com.", "ns2.example.com."],
      nameservers := [{ name := "ns1.example.com" },
                      { name := "ns2.example.com" }],
      client := some { baseURL := "https://pdns.example/api", apiKey := "k",
                       httpClient := {} } }
    rfl).2

/-- C3: a completed normalization loop hands on exactly the input entries
with their one last character removed — dot or not — and implies every
entry was non-empty. -/
theorem C3_strip_exactly_one_char (l l' : List String)
    (h : stripAll l = .ok l') :
    l' = l.map (fun ns => ns.dropRight 1) ∧ ∀ ns ∈ l, ns ≠ "" :=
  ⟨stripAll_ok h, stripAll_ok_ne h⟩

/-- Witness for C3 on a list whose entries end in a non-dot and in a dot. -/
theorem C3_strip_exactly_one_char_witness :
    (["ab", "x"] : List String) =
      ["abc", "x."].map (fun ns => ns.dropRight 1) :=
  (C3_strip_exactly_one_char ["abc", "x."] ["ab", "x"] (by decide)).1

/-- C4: if the config carries `skipTLSVerify` and the earlier steps
(validation, metadata, nameservers) pass, then a value the boolean parser
rejects makes `newDSP` return the parser's error, and a parsable value lets
construction proceed with the transport's `insecureSkipVerify` flag equal
to the parsed boolean. -/
theorem C4_skipTLSVerify (appendCerts : String → List String)
    (failURL : String → Option GoError) (m : ConfigMap)
    (metadata : Metadata) (v : String) (d1 : powerdnsProvider)
    (nss : List String) (nsv : List Nameserver)
    (hv : lookup m "skipTLSVerify" = some v)
    (h1 : mGet m "apiKey" ≠ "") (h2 : mGet m "apiUrl" ≠ "")
    (h3 : mGet m "serverName" ≠ "")
    (hmd : applyMetadata metadata
      { APIKey := mGet m "apiKey", APIUrl := mGet m "apiUrl",
        ServerName := mGet m "serverName" } = .ok d1)
    (hns : stripAll d1.DefaultNS = .ok nss)
    (htn : ToNameservers nss = .ok nsv) :
    (∀ e, ParseBool v = .error e →
      newDSP appendCerts failURL m metadata =
        .ok (some { d1 with nameservers := nsv }, some e)) ∧
    (∀ b d c, ParseBool v = .ok b →
      newDSP appendCerts failURL m metadata = .ok (some d, none) →
      d.client = some c →
      ∃ t, c.httpClient.transport = some t ∧
        t.tlsClientConfig.insecureSkipVerify = b) := by
  constructor
  · intro e he
    unfold newDSP
    rw [if_neg h1, if_neg h2, if_neg h3, hmd]
    dsimp only
    rw [hns]
    dsimp only
    rw [htn]
    dsimp only
    rw [buildHttpClient_skipErr hv he]
  · intro b d c hb hok hc
    obtain ⟨d1x, nssx, nsvx, cl, cx, _, _, _, _, _, _, hcl, hpn, rfl⟩ :=
      newDSP_ok_inv hok
    dsimp only at hc
    rw [Option.some.injEq] at hc
    subst hc
    unfold pdnsNew at hpn
    cases hf : failURL d1x.APIUrl with
    | some e => rw [hf] at hpn; cases hpn
    | none =>
      rw [hf] at hpn
      dsimp only at hpn
      cases hpn
      exact buildHttpClient_flag hv hb hcl

/-- Witness for C4: a non-boolean `skipTLSVerify` value surfaces the
parser's error next to the partially built instance. -/
theorem C4_skipTLSVerify_witness :
    newDSP (fun _ => []) (fun _ => none)
        [("apiKey", "k"), ("apiUrl", "u"), ("serverName", "s"),
         ("skipTLSVerify", "yes")] .empty =
      .ok (some { APIKey := "k", APIUrl := "u", ServerName := "s" },
           some "strconv.ParseBool: parsing \"yes\": invalid syntax") :=
  (C4_skipTLSVerify (fun _ => []) (fun _ => none)
    [("apiKey", "k"), ("apiUrl", "u"), ("serverName", "s"),
     ("skipTLSVerify", "yes")] .empty "yes"
    { APIKey := "k", APIUrl := "u", ServerName := "s" } [] []
    rfl (by decide) (by decide) (by decide) rfl rfl rfl).1
    "strconv.ParseBool: parsing \"yes\": invalid syntax" rfl

/-- C5: if the config carries `cert` and the earlier steps pass (with any
present `skipTLSVerify` value parsing), then a blob in which no certificate
parses makes `newDSP` fail with "unable to parse given certificate",
while a blob with at least one parsed certificate lets construction proceed
with the transport's root-authority set equal to exactly the new pool
(replacing, not merging with, the system default `none`). -/
theorem C5_cert_pool (appendCerts : String → List String)
    (failURL : String → Option GoError) (m : ConfigMap)
    (metadata : Metadata) (pem : String) (d1 : powerdnsProvider)
    (nss : List String) (nsv : List Nameserver)
    (hp : lookup m "cert" = some pem)
    (h1 : mGet m "apiKey" ≠ "") (h2 : mGet m "apiUrl" ≠ "")
    (h3 : mGet m "serverName" ≠ "")
    (hmd : applyMetadata metadata
      { APIKey := mGet m "apiKey", APIUrl := mGet m "apiUrl",
        ServerName := mGet m "serverName" } = .ok d1)
    (hns : stripAll d1.DefaultNS = .ok nss)
    (htn : ToNameservers nss = .ok nsv)
    (hskip : ∀ v, lookup m "skipTLSVerify" = some v →
      ∃ b, ParseBool v = .ok b) :
    (appendCerts pem = [] →
      newDSP appendCerts failURL m metadata =
        .ok (some { d1 with nameservers := nsv },
             some "unable to parse given certificate")) ∧
    (∀ d c, newDSP appendCerts failURL m metadata = .ok (some d, none) →
      d.client = some c →
      ∃ t, c.httpClient.transport = some t ∧
        t.tlsClientConfig.rootCAs = some (appendCerts pem)) := by
  constructor
  · intro he
    unfold newDSP
    rw [if_neg h1, if_neg h2, if_neg h3, hmd]
    dsimp only
    rw [hns]
    dsimp only
    rw [htn]
    dsimp only
    rw [buildHttpClient_certErr hp he hskip]
  · intro d c hok hc
    obtain ⟨d1x, nssx, nsvx, cl, cx, _, _, _, _, _, _, hcl, hpn, rfl⟩ :=
      newDSP_ok_inv hok
    dsimp only at hc
    rw [Option.some.injEq] at hc
    subst hc
    unfold pdnsNew at hpn
    cases hf : failURL d1x.APIUrl with
    | some e => rw [hf] at hpn; cases hpn
    | none =>
      rw [hf] at hpn
      dsimp only at hpn
      cases hpn
      by_cases hne : appendCerts pem = []
      · rw [buildHttpClient_certErr hp hne hskip] at hcl; cases hcl
      · exact buildHttpClient_roots hp hne hcl

/-- Witness for C5: a cert blob in which nothing parses fails construction
with the certificate error. -/
theorem C5_cert_pool_witness :
    newDSP (fun _ => []) (fun _ => none)
        [("apiKey", "k"), ("apiUrl", "u"), ("serverName", "s"),
         ("cert", "garbage")] .empty =
      .ok (some { APIKey := "k", APIUrl := "u", ServerName := "s" },
           some "unable to parse given certificate") :=
  (C5_cert_pool (fun _ => []) (fun _ => none)
    [("apiKey", "k"), ("apiUrl", "u"), ("serverName", "s"),
     ("cert", "garbage")] .empty "garbage"
    { APIKey := "k", APIUrl := "u", ServerName := "s" } [] []
    rfl (by decide) (by decide) (by decide) rfl rfl rfl
    (fun v hv => Option.noConfusion hv)).1 rfl

/-- C6 counterexample: the claim says the metadata overlay leaves the
validated `apiKey` unchanged, but a document key `APIKey` (the exported,
untagged struct field, matched by `encoding/json` by field name) overrides
it — and the overridden value is even used for the client's
authentication. -/
theorem C6_overlay_counterexample :
    newDSP (fun _ => []) (fun _ => none)
        [("apiKey", "k"), ("apiUrl", "u"), ("serverName", "s")]
        (.obj [("APIKey", .str "evil")]) =
      .ok (some { APIKey := "evil", APIUrl := "u", ServerName := "s",
                  client := some { baseURL := "u", apiKey := "evil",
                                   httpClient := {} } }, none) ∧
    ("evil" : String) ≠
      mGet [("apiKey", "k"), ("apiUrl", "u"), ("serverName", "s")]
        "apiKey" :=
  ⟨rfl, by decide⟩

/-- C6 (amended): a malformed metadata document makes `newDSP` return a nil
instance with the decode error; a successful decode never touches the
unexported `client` and `nameservers` fields; and the validated `apiKey`,
`apiUrl` and `serverName` values stay unchanged provided no document key
matches one of those field names case-insensitively — such a key does
override them, because the fields are exported and untagged. -/
theorem C6_overlay_frame :
    (∀ (appendCerts : String → List String)
        (failURL : String → Option GoError) (m : ConfigMap) (e : GoError),
      mGet m "apiKey" ≠ "" → mGet m "apiUrl" ≠ "" →
      mGet m "serverName" ≠ "" →
      newDSP appendCerts failURL m (.malformed e) = .ok (none, some e)) ∧
    (∀ (fields : List (String × JVal)) (d d' : powerdnsProvider),
      unmarshal fields d = .ok d' →
      d'.client = d.client ∧ d'.nameservers = d.nameservers ∧
      ((∀ k ∈ fields.map Prod.fst, lowerStr k ≠ "apikey" ∧
          lowerStr k ≠ "apiurl" ∧ lowerStr k ≠ "servername") →
        d'.APIKey = d.APIKey ∧ d'.APIUrl = d.APIUrl ∧
          d'.ServerName = d.ServerName)) := by
  constructor
  · intro appendCerts failURL m e h1 h2 h3
    unfold newDSP
    rw [if_neg h1, if_neg h2, if_neg h3]
    rfl
  · intro fields d d' h
    obtain ⟨hc, hn⟩ := unmarshal_frame h
    exact ⟨hc, hn, fun hk => unmarshal_cred_frame hk h⟩

/-- Witness for C6's amended claim: a malformed document aborts
construction with the decode error and a nil instance. -/
theorem C6_overlay_frame_witness :
    newDSP (fun _ => []) (fun _ => none)
        [("apiKey", "k"), ("apiUrl", "u"), ("serverName", "s")]
        (.malformed "invalid character at offset 0") =
      .ok (none, some "invalid character at offset 0") :=
  C6_overlay_frame.1 (fun _ => []) (fun _ => none)
    [("apiKey", "k"), ("apiUrl", "u"), ("serverName", "s")]
    "invalid character at offset 0" (by decide) (by decide) (by decide)

/-- C7: with neither `skipTLSVerify` nor `cert` present, the HTTP client
handed to the remote-API constructor keeps the nil default transport: the
transport step returns the default client, and on a successful run the
client recorded in the instance carries no custom transport. -/
theorem C7_default_transport (appendCerts : String → List String)
    (failURL : String → Option GoError) (m : ConfigMap)
    (metadata : Metadata) (h1 : lookup m "skipTLSVerify" = none)
    (h2 : lookup m "cert" = none) :
    buildHttpClient appendCerts m = .ok { transport := none } ∧
    (∀ d c, newDSP appendCerts failURL m metadata = .ok (some d, none) →
      d.client = some c → c.httpClient.transport = none) := by
  refine ⟨buildHttpClient_default h1 h2, ?_⟩
  intro d c hok hc
  obtain ⟨d1x, nssx, nsvx, cl, cx, _, _, _, _, _, _, hcl, hpn, rfl⟩ :=
    newDSP_ok_inv hok
  dsimp only at hc
  rw [Option.some.injEq] at hc
  subst hc
  rw [buildHttpClient_default h1 h2] at hcl
  cases hcl
  unfold pdnsNew at hpn
  cases hf : failURL d1x.APIUrl with
  | some e => rw [hf] at hpn; cases hpn
  | none =>
    rw [hf] at hpn
    dsimp only at hpn
    cases hpn
    rfl

/-- Witness for C7 at the end-to-end configuration without TLS keys. -/
theorem C7_default_transport_witness :
    ({ baseURL := "u", apiKey := "k", httpClient := {} } :
        PdnsClient).httpClient.transport = none :=
  (C7_default_transport (fun _ => []) (fun _ => none)
    [("apiKey", "k"), ("apiUrl", "u"), ("serverName", "s")] .empty
    rfl rfl).2
    { APIKey := "k", APIUrl := "u", ServerName := "s",
      client := some { baseURL := "u", apiKey := "k", httpClient := {} } }
    { baseURL := "u", apiKey := "k", httpClient := {} }
    rfl rfl

/-- C8: once validation, metadata and normalization have passed, a
nameserver-constructor failure returns the partially built instance (with
an empty nameserver list) together with that error, and a remote-client
assembly failure returns the partially built instance (with a nil client)
together with that error — neither returns a nil instance. -/
theorem C8_partial_instance_on_error (appendCerts : String → List String)
    (failURL : String → Option GoError) (m : ConfigMap)
    (metadata : Metadata) (d1 : powerdnsProvider) (nss : List String)
    (h1 : mGet m "apiKey" ≠ "") (h2 : mGet m "apiUrl" ≠ "")
    (h3 : mGet m "serverName" ≠ "")
    (hmd : applyMetadata metadata
      { APIKey := mGet m "apiKey", APIUrl := mGet m "apiUrl",
        ServerName := mGet m "serverName" } = .ok d1)
    (hns : stripAll d1.DefaultNS = .ok nss) :
    (∀ e, ToNameservers nss = .error e →
      newDSP appendCerts failURL m metadata =
        .ok (some { d1 with nameservers := [] }, some e)) ∧
    (∀ nsv cl e, ToNameservers nss = .ok nsv →
      buildHttpClient appendCerts m = .ok cl →
      failURL d1.APIUrl = some e →
      newDSP appendCerts failURL m metadata =
        .ok (some { d1 with nameservers := nsv, client := none },
             some e)) := by
  constructor
  · intro e htn
    unfold newDSP
    rw [if_neg h1, if_neg h2, if_neg h3, hmd]
    dsimp only
    rw [hns]
    dsimp only
    rw [htn]
  · intro nsv cl e htn hcl hf
    unfold newDSP
    rw [if_neg h1, if_neg h2, if_neg h3, hmd]
    dsimp only
    rw [hns]
    dsimp only
    rw [htn]
    dsimp only
    rw [hcl]
    dsimp only
    unfold pdnsNew
    rw [hf]

/-- Witness for C8: a default_ns entry that still has a trailing dot after
normalization is rejected, and the partial instance is returned with the
error. -/
theorem C8_partial_instance_on_error_witness :
    newDSP (fun _ => []) (fun _ => none)
        [("apiKey", "k"), ("apiUrl", "u"), ("serverName", "s")]
        (.obj [("default_ns", .arr ["a.."])]) =
      .ok (some { APIKey := "k", APIUrl := "u", ServerName := "s",
                  DefaultNS := ["a.."] },
           some "provider code leaves trailing dot on nameserver") :=
  (C8_partial_instance_on_error (fun _ => []) (fun _ => none)
    [("apiKey", "k"), ("apiUrl", "u"), ("serverName", "s")]
    (.obj [("default_ns", .arr ["a.."])])
    { APIKey := "k", APIUrl := "u", ServerName := "s",
      DefaultNS := ["a.."] } ["a."]
    (by decide) (by decide) (by decide) rfl rfl).1
    "provider code leaves trailing dot on nameserver" rfl

/-- C9: the capability table registered under provider type "POWERDNS" maps
CanConcur to Cannot: the list literal contains that pair, the lookup the
engine performs returns it, and the registration hands the table on
verbatim (the table is a single immutable definition). -/
theorem C9_canconcur_cannot :
    registeredEntry.providerName = "POWERDNS" ∧
    registeredEntry.capabilities = features ∧
    featuresLookup Capability.CanConcur = CapabilityDescriptor.cannot [] ∧
    (Capability.CanConcur, CapabilityDescriptor.cannot []) ∈ features :=
  ⟨rfl, rfl, rfl, by decide⟩

/-- C10: normalization is total only for non-empty entries: a metadata
document whose default_ns list contains the empty string makes `newDSP`
panic with the Go slice-bounds error instead of returning one, while the
loop completes whenever every entry is non-empty. -/
theorem C10_empty_entry_panics :
    (newDSP (fun _ => []) (fun _ => none)
        [("apiKey", "k"), ("apiUrl", "u"), ("serverName", "s")]
        (.obj [("default_ns", .arr [""])]) =
      .panicked "runtime error: slice bounds out of range [:-1]") ∧
    (∀ l : List String, (∀ ns ∈ l, ns ≠ "") →
      stripAll l = .ok (l.map (fun ns => ns.dropRight 1))) :=
  ⟨rfl, fun _ h => stripAll_total h⟩

/-- Witness for C10's totality direction at a concrete non-empty entry. -/
theorem C10_empty_entry_panics_witness :
    stripAll ["a"] = .ok (["a"].map (fun ns => ns.dropRight 1)) :=
  C10_empty_entry_panics.2 ["a"] (by decide)

end PowerDNS
